import Mathlib

/-!
Verification of the camera session worker of the photo_app repository.

The embedded code comes from:
* `src/core/gphoto_interface.py` — the `GPhotoInterface` session worker
  (preview loop, error policy, capture sequencer, parameter updates,
  teardown `_safe_camera_exit`, config filtering `_get_filtered_config`,
  shutter parsing `_parse_shutter`, value cleaning `_clean_value`);
* `src/ui/views/camera_view.py` — the `CameraView` connection controller
  (`_toggle_liveview`, `_start_lv`, `_stop_lv`, `_on_lv_error`,
  `_try_reconnect`, `on_probe_completed`, `_on_thread_finished`,
  `_on_dead_thread_finished`).

Device I/O (libgphoto2 calls) is modelled by oracles that choose, for each
failable call, whether it succeeds, raises a `gphoto2.GPhoto2Error` with a
code, or raises a generic exception.  Python floats are modelled as exact
rationals; Python `float(str)` is modelled on decimal-numeral syntax
(sign, digits, optional fraction part, optional exponent; the `inf`/`nan`
and underscore-separator forms are not modelled).
-/

namespace PhotoApp

/-! ## String helpers modelling the Python primitives used by the worker -/

/-- Lower-casing, modelling Python `str.lower()` on the characters used by
the camera configuration strings. -/
def lowerStr (s : String) : String :=
  String.mk (s.toList.map Char.toLower)

/-- Whether `p` occurs as a contiguous run inside `l` (Python `in` on strings). -/
def listHasRun (p l : List Char) : Bool :=
  (List.range (l.length + 1)).any fun i => (l.drop i).take p.length == p

/-- Python `pat in s` substring test. -/
def strContains (s pat : String) : Bool :=
  listHasRun pat.toList s.toList

/-- Python `str.isdigit()` (restricted to ASCII digits): nonempty and all digits. -/
def pyIsDigit (s : String) : Bool :=
  !s.toList.isEmpty && s.toList.all Char.isDigit

/-- Value of a digit string, used to model Python `int(val)` on strings that
passed `isdigit()`. -/
def digitsToNat (l : List Char) : Nat :=
  l.foldl (fun a c => a * 10 + (c.toNat - 48)) 0

/-- Python `int(val)` for an all-digit string. -/
def pyIntOfDigits (s : String) : Nat :=
  digitsToNat s.toList

/-- Strip leading and trailing whitespace, as Python `float(str)` does. -/
def stripWs (l : List Char) : List Char :=
  ((l.dropWhile Char.isWhitespace).reverse.dropWhile Char.isWhitespace).reverse

/-- Split a character list at the first occurrence of any separator in `sep`:
returns the part before it and, when a separator was found, the part after it. -/
def splitFirst (sep : List Char) : List Char → List Char × Option (List Char)
  | [] => ([], none)
  | c :: rest =>
    if sep.contains c then ([], some rest)
    else
      let (a, b) := splitFirst sep rest
      (c :: a, b)

def allDigits (l : List Char) : Bool :=
  l.all Char.isDigit

/-- Exponent part of a float literal: optional sign followed by at least one digit. -/
def parseExpInt (l : List Char) : Option Int :=
  match l with
  | '+' :: rest =>
    if !rest.isEmpty && allDigits rest then some (digitsToNat rest) else none
  | '-' :: rest =>
    if !rest.isEmpty && allDigits rest then some (-(digitsToNat rest : Int)) else none
  | _ =>
    if !l.isEmpty && allDigits l then some (digitsToNat l) else none

/-- Mantissa of a float literal (`digits`, `digits.digits`, `digits.` or
`.digits`) as an exact numerator/denominator pair
(`ip.fp = (ip·10^k + fp) / 10^k`). -/
def parseMantissaND (l : List Char) : Option (Nat × Nat) :=
  match splitFirst ['.'] l with
  | (ip, none) =>
    if !ip.isEmpty && allDigits ip then some (digitsToNat ip, 1) else none
  | (ip, some fp) =>
    if (!ip.isEmpty || !fp.isEmpty) && allDigits ip && allDigits fp then
      some (digitsToNat ip * 10 ^ fp.length + digitsToNat fp, 10 ^ fp.length)
    else none

/-- Unsigned decimal numeral with optional exponent, assembled with
`Rat.divInt` so the value is kernel-computable. -/
def parseNum (l : List Char) : Option ℚ :=
  match splitFirst ['e', 'E'] l with
  | (m, none) => (parseMantissaND m).map fun p => Rat.divInt p.1 p.2
  | (m, some e) =>
    match parseMantissaND m, parseExpInt e with
    | some p, some ex =>
      if 0 ≤ ex then some (Rat.divInt (p.1 * 10 ^ ex.toNat) p.2)
      else some (Rat.divInt p.1 (p.2 * 10 ^ (-ex).toNat))
    | _, _ => none

/-- Model of Python `float(str)` on decimal numerals, as an exact rational;
`none` models a raised `ValueError`. -/
def pyFloat (s : String) : Option ℚ :=
  match stripWs s.toList with
  | '+' :: rest => parseNum rest
  | '-' :: rest => (parseNum rest).map (fun q => -q)
  | l => parseNum l

/-! ## `GPhotoInterface._parse_shutter` and `_clean_value` -/

/-- Python `str.split(sep)` for a one-character separator, on char lists:
splits at every occurrence, keeping empty parts. -/
def pySplitChar (sep : Char) : List Char → List (List Char)
  | [] => [[]]
  | c :: rest =>
    if c = sep then [] :: pySplitChar sep rest
    else
      match pySplitChar sep rest with
      | [] => [[c]]
      | p :: ps => (c :: p) :: ps

/-- Python `val.split(sep)` for a one-character separator. -/
def pySplit (sep : Char) (s : String) : List String :=
  (pySplitChar sep s.toList).map String.mk

/-- Exact division of two rationals by cross-multiplication
(kernel-computable; agrees with `·/·` whenever the divisor is nonzero,
which the caller guards). -/
def ratDiv (a b : ℚ) : ℚ :=
  Rat.divInt (a.num * b.den) (a.den * b.num)

/-- The two Python exception kinds the body of `_parse_shutter` can raise. -/
inductive PyExc
  | valueError
  | zeroDivisionError
  deriving Repr, DecidableEq

/-- The body of `GPhotoInterface._parse_shutter` before its `try`/`except`:
`if '/' in val: n, d = val.split('/'); return float(n) / float(d)` else
`return float(val)`.  Unpacking a split of length other than two raises
`ValueError`; `float()` on an unparsable string raises `ValueError`;
division by zero raises `ZeroDivisionError`. -/
def parse_shutter_body (val : String) : Except PyExc ℚ :=
  if strContains val "/" then
    match pySplit '/' val with
    | [n, d] =>
      match pyFloat n with
      | none => .error .valueError
      | some qn =>
        match pyFloat d with
        | none => .error .valueError
        | some qd =>
          if qd = 0 then .error .zeroDivisionError else .ok (ratDiv qn qd)
    | _ => .error .valueError
  else
    match pyFloat val with
    | none => .error .valueError
    | some q => .ok q

/-- `GPhotoInterface._parse_shutter`: the body above wrapped in
`except (ValueError, ZeroDivisionError): return 0`. -/
def parse_shutter (val : String) : ℚ :=
  match parse_shutter_body val with
  | .ok q => q
  | .error .valueError => 0
  | .error .zeroDivisionError => 0

/-- The shutter parser as the specification describes it, stated for
refinement comparison with `parse_shutter`: a fraction string `n/d` returns
`n/d`, a plain numeral returns its value, and any unparsable string or zero
denominator returns `0`. -/
def parse_shutter_spec (val : String) : ℚ :=
  if strContains val "/" then
    match pySplit '/' val with
    | [n, d] =>
      match pyFloat n, pyFloat d with
      | some qn, some qd => if qd = 0 then 0 else ratDiv qn qd
      | _, _ => 0
    | _ => 0
  else (pyFloat val).getD 0

/-- `GPhotoInterface._clean_value`: map any choice whose lower-cased text
contains `00ff` or `bulb` to `Auto`, keep the rest verbatim. -/
def clean_value (val : String) : String :=
  let v := lowerStr val
  if strContains v "00ff" || strContains v "bulb" then "Auto" else val

/-! ## `GPhotoInterface._get_filtered_config`: choice filtering

Constants from `GPhotoInterface.__init__`: `MAX_ISO = 1600`,
`MIN_SHUTTER_VAL = 0.25` (1/4 s), `MAX_SHUTTER_VAL = 0.001` (1/1000 s);
the two float thresholds are modelled as exact rationals. -/

def MAX_ISO : Nat := 1600

def MIN_SHUTTER_VAL : ℚ := Rat.divInt 1 4

def MAX_SHUTTER_VAL : ℚ := Rat.divInt 1 1000

/-- One iteration of the `for c in raw_choices` loop of
`_get_filtered_config` for parameter `name`: clean the value, drop
out-of-range iso values, drop out-of-range shutter speeds, de-duplicate. -/
def choiceStep (name : String) (choices : List String) (c : String) : List String :=
  let val := clean_value c
  if name == "iso" && pyIsDigit val && decide (MAX_ISO < pyIntOfDigits val) then
    choices
  else if name == "shutterspeed" && val != "Auto" &&
      (decide (MIN_SHUTTER_VAL < parse_shutter val) ||
       decide (parse_shutter val < MAX_SHUTTER_VAL)) then
    choices
  else if choices.contains val then
    choices
  else
    choices ++ [val]

/-- The `choices` list built by `_get_filtered_config` for exposure
parameter `name` from the device's raw choice list, including the trailing
`Auto` insertion when the raw list has a `00ff` entry that was not kept. -/
def build_choices (name : String) (rawChoices : List String) : List String :=
  let choices := rawChoices.foldl (choiceStep name) []
  if !choices.contains "Auto" &&
      rawChoices.any (fun c => strContains (lowerStr c) "00ff") then
    "Auto" :: choices
  else choices

/-! ## The command queue drain section of `GPhotoInterface.run`

Lines 161–173 of `gphoto_interface.py`: the worker locks `self.mutex`,
then pops and *executes* every queued command (`_execute_capture` /
`_execute_update`, both of which perform device I/O) while the lock is
held, and unlocks in the `finally`.  We record this section as a trace of
atomic events and measure which device I/O happens under the lock. -/

/-- A queued command: `update_camera_param` enqueues `(name, value)` pairs,
`capture_photo` enqueues `('__CAPTURE__', save_dir)`. -/
inductive Cmd
  | paramUpdate (name value : String)
  | captureReq (saveDir : String)
  deriving Repr, DecidableEq

/-- Atomic events of the drain section of one loop iteration. -/
inductive LoopEv
  | lockAcq
  | lockRel
  | popCmd (c : Cmd)
  | deviceIo (c : Cmd)
  deriving Repr, DecidableEq

/-- Event trace of the drain section for a given queue content: lock, then
for each command in order a pop followed by its execution (device I/O),
then unlock — exactly the structure of lines 161–173. -/
def drainEvents (queue : List Cmd) : List LoopEv :=
  [LoopEv.lockAcq] ++
    (queue.map fun c => [LoopEv.popCmd c, LoopEv.deviceIo c]).flatten ++
    [LoopEv.lockRel]

/-- Number of `deviceIo` events that occur while the lock depth is positive. -/
def ioLockedCount : List LoopEv → Nat → Nat
  | [], _ => 0
  | e :: es, depth =>
    match e with
    | .lockAcq => ioLockedCount es (depth + 1)
    | .lockRel => ioLockedCount es (depth - 1)
    | .popCmd _ => ioLockedCount es depth
    | .deviceIo _ => (if 0 < depth then 1 else 0) + ioLockedCount es depth

/-- Whether any device I/O happens while the command-queue mutex is held. -/
def ioUnderLock (evs : List LoopEv) : Bool :=
  decide (0 < ioLockedCount evs 0)

/-! ## The worker state and the preview-loop error policy -/

/-- Observable state of one `GPhotoInterface.run` execution.  `camera`
models `self.camera is not None`; `exitCalls` counts calls of
`self.camera.exit`; `fatalEmitted` records an `error_occurred` emission;
`restarts` counts session restarts (close + reopen) performed inside the
streaming loop; `sleepMs` is the `fps_sleep` chosen by the last iteration
(in milliseconds); `queueLen` is the pending command count. -/
structure WSt where
  camera : Bool := false
  exitCalls : Nat := 0
  keepRunning : Bool := false
  consecutiveErrors : Nat := 0
  fatalEmitted : Bool := false
  settingsEmitted : Bool := false
  framesEmitted : Nat := 0
  previewAttempts : Nat := 0
  restarts : Nat := 0
  sleepMs : Nat := 50
  queueLen : Nat := 0
  deriving Repr, DecidableEq

/-- `HEAVY_ERRORS = {ERR_USB, ERR_NO_SPACE} = {-52, -53}`. -/
def HEAVY_ERRORS : List Int := [-52, -53]

/-- `LIGHT_ERRORS = {ERR_TIMEOUT, ERR_BUSY, ERR_GENERIC, ERR_IO}`
(`ERR_BUSY` equals `ERR_TIMEOUT`, both `-110`). -/
def LIGHT_ERRORS : List Int := [-110, -1, -7]

def MAX_CONSECUTIVE_ERRORS : Nat := 20

/-- The `except gp.GPhoto2Error` branch of the preview loop
(lines 191–221): increment the consecutive-error counter, clear the
command queue, pick the sleep interval from the severity of the code
(1.5 s for heavy, 0.5 s otherwise), and when the counter reaches
`MAX_CONSECUTIVE_ERRORS` emit a fatal `error_occurred` and stop the loop.
`latencyMs` is the wall-clock latency of the failed operation; the code
does not measure or use it, and the session is never restarted here. -/
def handlePreviewError (code : Int) (_latencyMs : Nat) (st : WSt) : WSt :=
  let st :=
    { st with
      consecutiveErrors := st.consecutiveErrors + 1
      queueLen := 0
      sleepMs :=
        if HEAVY_ERRORS.contains code then 1500
        else if LIGHT_ERRORS.contains code then 500
        else 500 }
  if MAX_CONSECUTIVE_ERRORS ≤ st.consecutiveErrors then
    { st with fatalEmitted := true, keepRunning := false }
  else st

/-- Outcome of one streaming iteration's preview-frame attempt:
success, a `GPhoto2Error` with code and operation latency, or an
unclassified exception (the `except Exception` branch, lines 223–230). -/
inductive IterRes
  | frameOk
  | gpErr (code : Int) (latencyMs : Nat)
  | exc
  deriving Repr, DecidableEq

/-- One iteration of the streaming loop (preview-frame part): attempt the
preview capture; on success emit the frame and reset the counter; on a
`GPhoto2Error` run the error policy; on an unclassified exception
increment the counter without clearing the queue.  The queue-drain part is
modelled separately by `drainEvents`/`execute_capture` since it raises no
exception and does not touch the session handle. -/
def loopIter (st : WSt) : IterRes → WSt
  | .frameOk =>
    { st with
      previewAttempts := st.previewAttempts + 1
      framesEmitted := st.framesEmitted + 1
      consecutiveErrors := 0
      sleepMs := 50 }
  | .gpErr code lat =>
    handlePreviewError code lat
      { st with previewAttempts := st.previewAttempts + 1, sleepMs := 50 }
  | .exc =>
    let st :=
      { st with
        previewAttempts := st.previewAttempts + 1
        consecutiveErrors := st.consecutiveErrors + 1
        sleepMs := 500 }
    if MAX_CONSECUTIVE_ERRORS ≤ st.consecutiveErrors then
      { st with fatalEmitted := true, keepRunning := false }
    else st

/-- `while self.keep_running:` over a prescribed sequence of iteration
outcomes; an exhausted list models `keep_running` being cleared externally
by `stop()`. -/
def runLoop (st : WSt) : List IterRes → WSt
  | [] => st
  | r :: rs => if st.keepRunning then runLoop (loopIter st r) rs else st

/-- Result of one `self.camera.init` attempt: success or a `GPhoto2Error`. -/
inductive InitRes
  | ok
  | gpFail (code : Int)
  deriving Repr, DecidableEq

/-- Oracle for one whole `run()` execution: outcome of the initial
autodetect, of the up to three init attempts (with the re-detects the
retries perform), whether the startup config fetch produced a non-empty
map, and the per-iteration outcomes of the streaming loop. -/
structure RunOracle where
  detectOk : Bool
  init1 : InitRes
  redetect2 : Bool
  init2 : InitRes
  redetect3 : Bool
  init3 : InitRes
  configNonempty : Bool
  iters : List IterRes
  deriving Repr

/-- One init retry (lines 108–118): tear down the broken `Camera` object
(`camera.exit` attempted, handle nulled), re-detect (which may raise), and
re-init.  Result: `some true` init succeeded, `some false` init raised a
`GPhoto2Error` (the retry loop continues), `none` the re-detect raised. -/
def initRetry (redetectOk : Bool) (res : InitRes) (st : WSt) : WSt × Option Bool :=
  let st := { st with exitCalls := st.exitCalls + 1, camera := false }
  if redetectOk then
    let st := { st with camera := true }
    match res with
    | .ok => (st, some true)
    | .gpFail _ => (st, some false)
  else (st, none)

/-- The init phase of `run()` (lines 102–130): autodetect (assigns
`self.camera` before init), then up to three init attempts; `false` means
an exception reached the outer `except` of `run()`. -/
def initPhase (o : RunOracle) (st0 : WSt) : WSt × Bool :=
  if o.detectOk then
    let st := { st0 with camera := true }
    match o.init1 with
    | .ok => (st, true)
    | .gpFail _ =>
      match initRetry o.redetect2 o.init2 st with
      | (st, some true) => (st, true)
      | (st, some false) =>
        match initRetry o.redetect3 o.init3 st with
        | (st, some true) => (st, true)
        | (st, _) => (st, false)
      | (st, none) => (st, false)
  else (st0, false)

/-- Everything `run()` does before its `finally` block: init phase
(failures reach the outer `except Exception`, which emits
`error_occurred`), the startup `settings_loaded` emission, and the
streaming loop. -/
def runBody (o : RunOracle) : WSt :=
  match initPhase o {} with
  | (st, false) => { st with fatalEmitted := true }
  | (st, true) =>
    let st := if o.configNonempty then { st with settingsEmitted := true } else st
    runLoop { st with keepRunning := true } o.iters

/-- `GPhotoInterface._safe_camera_exit`: when a handle is held, attempt
`camera.exit` (exceptions swallowed) and null the handle in a `finally`. -/
def safe_camera_exit (st : WSt) : WSt :=
  if st.camera then { st with exitCalls := st.exitCalls + 1, camera := false }
  else st

/-- `GPhotoInterface.run`: the body under `try`, then the `finally` block
which calls `_safe_camera_exit` on every exit path. -/
def runWorker (o : RunOracle) : WSt :=
  safe_camera_exit (runBody o)

/-- A `RunOracle` whose init phase succeeds at the first attempt,
streaming the given iteration outcomes. -/
def goodInit (iters : List IterRes) : RunOracle :=
  { detectOk := true, init1 := .ok, redetect2 := true, init2 := .ok,
    redetect3 := true, init3 := .ok, configNonempty := true, iters := iters }

/-! ## `GPhotoInterface._execute_capture`: the capture sequencer -/

/-- Outcome of one failable Python call: success with a value, a raised
`gphoto2.GPhoto2Error` with a code, or a raised generic exception. -/
inductive PyRes (α : Type)
  | ok (a : α)
  | gpErr (code : Int)
  | exc
  deriving Repr, DecidableEq

/-- Oracle for the device calls of one `_execute_capture` run.
`readTarget` covers the step-1 read (`get_config` / `get_child_by_name` /
`get_value` / `get_choices`, modelled atomically) yielding the original
`capturetarget` value and its choice list; `setTarget` the step-1
`set_value` + `set_config`; `trigger` the `camera.capture` call yielding
the device-side `(folder, name)`; `fileGet` the download; `save` the
local `makedirs` + `camera_file.save`; `delete`, `recovery` and `restore`
the best-effort steps. -/
structure CapOracle where
  readTarget : PyRes (String × List String)
  setTarget : PyRes Unit
  trigger : PyRes (String × String)
  fileGet : PyRes Unit
  save : PyRes Unit
  delete : PyRes Unit
  recovery : PyRes Unit
  restore : PyRes Unit
  deriving Repr, DecidableEq

/-- The storage-card option search of step 1: the first choice whose
lower-cased text contains `card`, `memory` or `sd`. -/
def cardOption (choices : List String) : Option String :=
  choices.find? fun choice =>
    strContains (lowerStr choice) "card" ||
    strContains (lowerStr choice) "memory" ||
    strContains (lowerStr choice) "sd"

/-- Python `os.path.join` for two components on POSIX: an absolute second
component replaces the first; otherwise join with `/` unless the first
part is empty or already ends in `/`. -/
def pyJoin (a b : String) : String :=
  if b.toList.head? = some '/' then b
  else if a.toList.getLast? = none ∨ a.toList.getLast? = some '/' then a ++ b
  else a ++ "/" ++ b

/-- The local path `_execute_capture` saves to and emits:
`os.path.join(os.path.join(save_dir, "captures"), f"{timestamp}_{name}")`. -/
def capturePath (saveDir timestamp name : String) : String :=
  pyJoin (pyJoin saveDir "captures") (timestamp ++ "_" ++ name)

/-- Observable outcome of one `_execute_capture` run. `capturedPath` is
the `image_captured` emission; `fatalEmitted` an `error_occurred`
emission; `restartAttempted` a session restart (close + reopen);
`changedTarget` whether step 1 switched `capturetarget` to the card
option; `restoreAttempted` whether the `finally` block attempted to
restore the original value. -/
structure CapResult where
  capturedPath : Option String := none
  captureFailedEmitted : Bool := false
  fatalEmitted : Bool := false
  restartAttempted : Bool := false
  changedTarget : Bool := false
  restoreAttempted : Bool := false
  deleteAttempted : Bool := false
  recoveryAttempted : Bool := false
  returnedOk : Bool := false
  deriving Repr, DecidableEq

/-- Step 1 of `_execute_capture` (its own `try`/`except`, lines 380–405):
on a successful read, when a card option exists and differs from the
current value, the switch is attempted.  Returns the value of
`original_target` after the step (set exactly when a change was decided,
surviving a raised switch — the exception is caught and the sequencer
continues) and whether the switch to the card option was completed. -/
def captureStep1 (o : CapOracle) : Option String × Bool :=
  match o.readTarget with
  | .ok (orig, choices) =>
    match cardOption choices with
    | some card =>
      if orig ≠ card then
        match o.setTarget with
        | .ok _ => (some orig, true)
        | _ => (some orig, false)
      else (none, false)
    | none => (none, false)
  | _ => (none, false)

/-- `GPhotoInterface._execute_capture` (lines 367–478).  The main body
triggers, downloads and saves; any `GPhoto2Error` or generic exception
there emits the non-fatal `capture_failed` — never `error_occurred`, and
no session restart exists in this function.  Deletion and preview
recovery are best-effort.  The `finally` block attempts the restore
exactly when `original_target` is set (Python truthiness; device target
strings are non-empty). -/
def execute_capture (saveDir timestamp : String) (o : CapOracle) : CapResult :=
  let step1 : Option String × Bool := captureStep1 o
  let body : CapResult :=
    match o.trigger with
    | .ok fp =>
      match o.fileGet with
      | .ok _ =>
        match o.save with
        | .ok _ =>
          { capturedPath := some (capturePath saveDir timestamp fp.2)
            deleteAttempted := true
            recoveryAttempted := true
            returnedOk := true }
        | _ => { captureFailedEmitted := true }
      | _ => { captureFailedEmitted := true }
    | _ => { captureFailedEmitted := true }
  { body with
    changedTarget := step1.2
    restoreAttempted := step1.1.isSome }

/-! ## The connection controller (`CameraView`) -/

/-- Controller state, from the `CameraView` fields that drive the
worker lifecycle: `lvRunning` models `lv_thread is not None and
lv_thread.isRunning()`; the five `conn*` flags model which of the dead or
live worker's signals are connected to the view; `workersStarted` counts
`_start_lv` executions (each constructs and starts a new
`GPhotoInterface`). -/
structure CtrlSt where
  lvRunning : Bool := false
  deadThread : Bool := false
  cameraReady : Bool := false
  needsReconnect : Bool := false
  errorStopped : Bool := false
  stopping : Bool := false
  reconnecting : Bool := false
  connFrame : Bool := false
  connSettings : Bool := false
  connError : Bool := false
  connImageCaptured : Bool := false
  connCaptureFailed : Bool := false
  workersStarted : Nat := 0
  deriving Repr, DecidableEq

/-- `CameraView._start_lv`: construct a fresh worker, connect all five
signals, start it. -/
def start_lv (s : CtrlSt) : CtrlSt :=
  { s with
    errorStopped := false
    lvRunning := true
    connFrame := true
    connSettings := true
    connError := true
    connImageCaptured := true
    connCaptureFailed := true
    workersStarted := s.workersStarted + 1 }

/-- `CameraView._stop_lv`: detach the worker, disconnect every signal
except `image_captured`, and mark `stopping` while the thread winds down
(`_on_thread_finished` clears it when the thread was already gone). -/
def stop_lv (s : CtrlSt) : CtrlSt :=
  if s.lvRunning then
    { s with
      errorStopped := false
      lvRunning := false
      connFrame := false
      connSettings := false
      connError := false
      connCaptureFailed := false
      stopping := true }
  else
    { s with errorStopped := false, lvRunning := false, stopping := false }

/-- `CameraView._on_lv_error` (lines 995–1058): clear the transient
flags, detach the dead worker, disconnect its signals — deliberately
keeping `image_captured` connected so an in-flight capture can still be
delivered — enter the needs-reconnect state, and track the dying thread
separately while it releases the USB handle. -/
def on_lv_error (s : CtrlSt) : CtrlSt :=
  { s with
    reconnecting := false
    stopping := false
    lvRunning := false
    deadThread := s.lvRunning || s.deadThread
    connFrame := false
    connSettings := false
    connError := false
    connCaptureFailed := false
    needsReconnect := true
    errorStopped := true
    cameraReady := false }

/-- `CameraView._toggle_liveview`: the only user entry point of the
worker lifecycle — stop a running worker, retry a broken connection
(`_try_reconnect` sets `reconnecting` and requests a probe), probe when no
camera is ready, or start a worker. -/
def toggle_liveview (s : CtrlSt) : CtrlSt :=
  if s.lvRunning then stop_lv s
  else if s.needsReconnect then { s with reconnecting := true }
  else if !s.cameraReady then s
  else start_lv s

/-- `CameraView.on_probe_completed`: ignores probes not triggered by
`_try_reconnect`; otherwise either re-enters needs-reconnect or, on a
successful probe with no worker running, starts a fresh worker. -/
def on_probe_completed (camReady : Bool) (s : CtrlSt) : CtrlSt :=
  if !s.reconnecting then s
  else
    let s := { s with reconnecting := false }
    if s.stopping then { s with needsReconnect := true }
    else if camReady && !s.lvRunning then
      start_lv { s with needsReconnect := false, errorStopped := false }
    else { s with needsReconnect := true }

/-- `CameraView._on_thread_finished`. -/
def on_thread_finished (s : CtrlSt) : CtrlSt :=
  { s with stopping := false }

/-- `CameraView._on_dead_thread_finished`. -/
def on_dead_thread_finished (s : CtrlSt) : CtrlSt :=
  { s with deadThread := false }

/-- Controller events.  `userToggle` is the explicit user action on the
live-view button (the retry action in the needs-reconnect state); the
others are delivered by the worker, the probe machinery and thread
completion — no user involvement. -/
inductive CtrlEv
  | userToggle
  | workerError
  | probeDone (cameraReady : Bool)
  | threadFinished
  | deadFinished
  deriving Repr, DecidableEq

def ctrlStep (s : CtrlSt) : CtrlEv → CtrlSt
  | .userToggle => toggle_liveview s
  | .workerError => on_lv_error s
  | .probeDone b => on_probe_completed b s
  | .threadFinished => on_thread_finished s
  | .deadFinished => on_dead_thread_finished s

def ctrlRun (s : CtrlSt) (evs : List CtrlEv) : CtrlSt :=
  evs.foldl ctrlStep s

/-! ## Theorems -/

/-- Claim C10: the shutter-speed parser is total — for every input string
it returns a number without raising an exception: a fraction string `n/d`
returns `n/d`, a plain numeral returns its value, and any unparsable
string or zero denominator returns `0`.  Stated as a refinement: the
embedded `_parse_shutter` (whose body raises the modelled Python
exceptions, caught by its `except (ValueError, ZeroDivisionError)`)
coincides everywhere with the exception-free function described by the
specification. -/
theorem claim10_parse_shutter_total (s : String) :
    parse_shutter s = parse_shutter_spec s := by
  unfold parse_shutter parse_shutter_body parse_shutter_spec
  by_cases h : strContains s "/" = true
  · rw [if_pos h, if_pos h]
    rcases hs : pySplit '/' s with _ | ⟨a, _ | ⟨b, _ | ⟨c, t⟩⟩⟩
    · rfl
    · rfl
    · rcases hn : pyFloat a with _ | qn
      · simp [hn]
      · rcases hd : pyFloat b with _ | qd
        · simp [hn, hd]
        · by_cases hz : qd = 0
          · simp [hn, hd, hz]
          · simp [hn, hd, hz]
    · rfl
  · rw [if_neg h, if_neg h]
    rcases hv : pyFloat s with _ | q <;> rfl

/-- All device I/O of the drain-and-execute section happens strictly
between the lock acquisition and the release at depth one. -/
lemma ioLockedCount_mid (queue : List Cmd) :
    ioLockedCount
      ((queue.map fun c => [LoopEv.popCmd c, LoopEv.deviceIo c]).flatten ++
        [LoopEv.lockRel]) 1 = queue.length := by
  induction queue with
  | nil => simp [ioLockedCount]
  | cons c cs ih => simp [ioLockedCount, ih, Nat.add_comm]

/-- The interior of the drain section contains no lock events. -/
lemma count_lockAcq_mid (queue : List Cmd) :
    ((queue.map fun c => [LoopEv.popCmd c, LoopEv.deviceIo c]).flatten).count
      LoopEv.lockAcq = 0 := by
  induction queue with
  | nil => rfl
  | cons c cs ih => simp [List.count_cons, ih]

/-- Claim C2 (amended): the single mutex acquisition of the worker's drain
section covers the execution of every drained command — each command's
device I/O (configuration write or capture) runs while the command-queue
mutex is held, and there is no separate atomic `drainAll` that returns the
queue for execution outside the lock. -/
theorem claim2_io_under_lock (queue : List Cmd) :
    ioLockedCount (drainEvents queue) 0 = queue.length ∧
    (drainEvents queue).count LoopEv.lockAcq = 1 := by
  constructor
  · simpa [drainEvents, ioLockedCount] using ioLockedCount_mid queue
  · simp [drainEvents, List.count_cons, List.count_append, count_lockAcq_mid]

/-- Claim C2 counterexample: already with a single queued capture request
the worker performs the capture's device I/O while the command-queue
mutex is held, so the mutex is not released before command execution. -/
theorem claim2_counterexample :
    ioUnderLock (drainEvents [Cmd.captureReq "/tmp/out"]) = true := by decide

/-- `_safe_camera_exit` does not change whether a fatal event was emitted. -/
lemma safe_camera_exit_fatal (st : WSt) :
    (safe_camera_exit st).fatalEmitted = st.fatalEmitted := by
  unfold safe_camera_exit; split <;> rfl

/-- A stopped loop consumes no further iterations. -/
lemma runLoop_stopped {st : WSt} (h : st.keepRunning = false) (l : List IterRes) :
    runLoop st l = st := by
  cases l with
  | nil => rfl
  | cons r rs => simp [runLoop, h]

/-- Claim C6: on every execution of `run()`, whatever the init outcomes
and loop iteration outcomes, the `finally` block leaves the camera handle
nulled, and it issues exactly one `camera.exit` call when a handle was
held at loop exit and none otherwise. -/
theorem claim6_session_closed_once (o : RunOracle) :
    (runWorker o).camera = false ∧
    (runWorker o).exitCalls =
      (runBody o).exitCalls + (if (runBody o).camera then 1 else 0) := by
  unfold runWorker safe_camera_exit
  by_cases h : (runBody o).camera <;> simp [h]

/-- Unfolding lemma: the preview-loop error handler increments the single
counter and terminates exactly when it reaches the total limit. -/
lemma handlePreviewError_fields (code : Int) (lat : Nat) (st : WSt) :
    (handlePreviewError code lat st).consecutiveErrors = st.consecutiveErrors + 1 ∧
    (handlePreviewError code lat st).fatalEmitted =
      (st.fatalEmitted ||
        decide (MAX_CONSECUTIVE_ERRORS ≤ st.consecutiveErrors + 1)) ∧
    (handlePreviewError code lat st).keepRunning =
      (st.keepRunning &&
        !decide (MAX_CONSECUTIVE_ERRORS ≤ st.consecutiveErrors + 1)) := by
  unfold handlePreviewError
  by_cases h : MAX_CONSECUTIVE_ERRORS ≤ st.consecutiveErrors + 1 <;> simp [h]

/-- Over any unbroken run of `GPhoto2Error` iterations, the loop emits the
fatal event exactly when the total number of consecutive errors reaches
`MAX_CONSECUTIVE_ERRORS`, whatever the codes and latencies. -/
lemma runLoop_gpErr_fatal (errs : List (Int × Nat)) :
    ∀ st : WSt, st.keepRunning = true → st.fatalEmitted = false →
      st.consecutiveErrors < MAX_CONSECUTIVE_ERRORS →
      (runLoop st (errs.map fun e => IterRes.gpErr e.1 e.2)).fatalEmitted
        = decide (MAX_CONSECUTIVE_ERRORS ≤ st.consecutiveErrors + errs.length) := by
  induction errs with
  | nil =>
    intro st hk hf hc
    simp only [List.map_nil, runLoop]
    rw [hf]
    symm
    simp only [decide_eq_false_iff_not, List.length_nil, Nat.add_zero]
    omega
  | cons e es ih =>
    intro st hk hf hc
    simp only [List.map_cons, runLoop, hk, if_true]
    by_cases h1 : MAX_CONSECUTIVE_ERRORS ≤ st.consecutiveErrors + 1
    · have hstop : (loopIter st (IterRes.gpErr e.1 e.2)).keepRunning = false := by
        simp [loopIter, handlePreviewError, h1]
      have hfatal : (loopIter st (IterRes.gpErr e.1 e.2)).fatalEmitted = true := by
        simp [loopIter, handlePreviewError, h1]
      rw [runLoop_stopped hstop, hfatal]
      symm
      simp only [decide_eq_true_eq, List.length_cons]
      omega
    · have hk1 : (loopIter st (IterRes.gpErr e.1 e.2)).keepRunning = true := by
        simp [loopIter, handlePreviewError, h1, hk]
      have hf1 : (loopIter st (IterRes.gpErr e.1 e.2)).fatalEmitted = false := by
        simp [loopIter, handlePreviewError, h1, hf]
      have hc1 : (loopIter st (IterRes.gpErr e.1 e.2)).consecutiveErrors =
          st.consecutiveErrors + 1 := by
        simp [loopIter, handlePreviewError, h1]
      rw [ih _ hk1 hf1 (by rw [hc1]; omega), hc1, decide_eq_decide]
      simp only [List.length_cons]
      omega

/-- On a clean first-attempt init, `run()` enters streaming with a fresh
counter, the handle held and the startup settings emitted. -/
lemma runBody_goodInit (iters : List IterRes) :
    runBody (goodInit iters) =
      runLoop { camera := true, keepRunning := true, settingsEmitted := true } iters := rfl

/-- Claim C1 (amended): the worker maintains only the single total
consecutive-error counter; a Heavy error selects the longer 1.5 s sleep
but does not accelerate termination — for every unbroken run of
`GPhoto2Error` iterations, heavy or not, the fatal `error_occurred` event
is emitted exactly when the total consecutive-error count reaches
`MAX_CONSECUTIVE_ERRORS` (20), and no earlier heavy-specific limit
exists. -/
theorem claim1_single_total_counter (errs : List (Int × Nat)) :
    ((runWorker (goodInit (errs.map fun e => IterRes.gpErr e.1 e.2))).fatalEmitted
        = decide (MAX_CONSECUTIVE_ERRORS ≤ errs.length)) ∧
    ∀ code lat (st : WSt),
      (handlePreviewError code lat st).sleepMs =
        if HEAVY_ERRORS.contains code then 1500 else 500 := by
  constructor
  · unfold runWorker
    rw [safe_camera_exit_fatal, runBody_goodInit]
    have h := runLoop_gpErr_fatal errs
      { camera := true, keepRunning := true, settingsEmitted := true }
      rfl rfl (by decide)
    simpa using h
  · intro code lat st
    unfold handlePreviewError
    by_cases h : MAX_CONSECUTIVE_ERRORS ≤ st.consecutiveErrors + 1 <;>
      by_cases hh : HEAVY_ERRORS.contains code <;> simp [h, hh]

/-- Claim C1 counterexample: a worker run whose streaming loop suffers 19
consecutive Heavy errors (`ERR_USB = -52`) — far past the claimed
`HeavyLimit` of 3 — emits no fatal error event at all, and after 3
consecutive Heavy errors the loop is still running; there is no
consecutive-heavy-error counter and no heavy fast-fail before the total
limit of 20. -/
theorem claim1_counterexample :
    (runWorker (goodInit (List.replicate 19 (IterRes.gpErr (-52) 0)))).fatalEmitted
      = false ∧
    (runBody (goodInit (List.replicate 3 (IterRes.gpErr (-52) 0)))).keepRunning
      = true := by decide

/-- No loop iteration ever performs a session restart. -/
lemma loopIter_restarts (st : WSt) (r : IterRes) :
    (loopIter st r).restarts = st.restarts := by
  cases r <;> simp only [loopIter, handlePreviewError] <;>
    first
    | rfl
    | (split <;> rfl)

lemma runLoop_restarts (l : List IterRes) :
    ∀ st : WSt, (runLoop st l).restarts = st.restarts := by
  induction l with
  | nil => intro st; rfl
  | cons r rs ih =>
    intro st
    by_cases hk : st.keepRunning = true
    · simp [runLoop, hk, ih, loopIter_restarts]
    · simp [runLoop, hk]

lemma initPhase_restarts (o : RunOracle) (st0 : WSt) :
    (initPhase o st0).1.restarts = st0.restarts := by
  unfold initPhase initRetry
  repeat' split
  all_goals rfl

lemma runBody_restarts (o : RunOracle) : (runBody o).restarts = 0 := by
  have hst : (initPhase o {}).1.restarts = 0 := initPhase_restarts o {}
  unfold runBody
  rcases hip : initPhase o ({} : WSt) with ⟨st, b⟩
  rw [hip] at hst
  cases b
  · simpa using hst
  · simp only []
    rw [runLoop_restarts]
    split <;> simpa using hst

/-- Claim C3 (amended): the worker never performs a session restart inside
the streaming loop — on any run, for any error codes and latencies, zero
restarts happen; a Generic error whose latency exceeded any threshold is
handled exactly like one with any other latency (the handler does not
depend on latency at all), with the 0.5 s sleep and the shared counter. -/
theorem claim3_no_latency_restart :
    (∀ o : RunOracle, (runWorker o).restarts = 0) ∧
    (∀ code lat lat' (st : WSt),
        handlePreviewError code lat st = handlePreviewError code lat' st) := by
  constructor
  · intro o
    unfold runWorker safe_camera_exit
    split <;> simpa using runBody_restarts o
  · intro code lat lat' st
    rfl

/-- Claim C3 counterexample: after a Generic error (`-1`) with latency
3000 ms (> 2000 ms) the worker proceeds to the next preview-frame attempt
having performed zero session restarts, not the claimed exactly one. -/
theorem claim3_counterexample :
    (runWorker (goodInit [IterRes.gpErr (-1) 3000, IterRes.frameOk])).restarts = 0 ∧
    (runWorker (goodInit [IterRes.gpErr (-1) 3000, IterRes.frameOk])).previewAttempts
      = 2 := by decide

/-- Claim C4 (amended): a `GPhoto2Error` raised while triggering the
capture — a timeout (`-110`) like any other code — makes
`_execute_capture` emit only the non-fatal `capture_failed` event: no
session restart is attempted, no fatal `error_occurred` is emitted, no
image path is delivered, and the function returns failure so the
live-view loop simply continues. -/
theorem claim4_trigger_timeout_nonfatal (saveDir ts : String) (o : CapOracle)
    (code : Int) (h : o.trigger = .gpErr code) :
    (execute_capture saveDir ts o).captureFailedEmitted = true ∧
    (execute_capture saveDir ts o).fatalEmitted = false ∧
    (execute_capture saveDir ts o).restartAttempted = false ∧
    (execute_capture saveDir ts o).capturedPath = none ∧
    (execute_capture saveDir ts o).returnedOk = false := by
  unfold execute_capture
  rw [h]
  simp

/-- Witness for claim C4's theorem at a concrete trigger-timeout oracle. -/
theorem claim4_witness :
    (execute_capture "/tmp/out" "20250101_120000"
      { readTarget := .ok ("Internal RAM", ["Internal RAM", "Memory card"])
        setTarget := .ok (), trigger := .gpErr (-110), fileGet := .ok ()
        save := .ok (), delete := .ok (), recovery := .ok ()
        restore := .ok () }).captureFailedEmitted = true :=
  (claim4_trigger_timeout_nonfatal "/tmp/out" "20250101_120000"
    { readTarget := .ok ("Internal RAM", ["Internal RAM", "Memory card"])
      setTarget := .ok (), trigger := .gpErr (-110), fileGet := .ok ()
      save := .ok (), delete := .ok (), recovery := .ok ()
      restore := .ok () } (-110) rfl).1

/-- Claim C4 counterexample: on a capture whose trigger raises the timeout
code `-110`, the worker attempts no session restart and emits no fatal
error event — only the non-fatal `capture_failed` — contrary to the
claimed Heavy treatment with a restart attempt and fatal escalation. -/
theorem claim4_counterexample :
    (execute_capture "/tmp/out" "20250101_120000"
      { readTarget := .ok ("Internal RAM", ["Internal RAM", "Memory card"])
        setTarget := .ok (), trigger := .gpErr (-110), fileGet := .ok ()
        save := .ok (), delete := .ok (), recovery := .ok ()
        restore := .ok () }).restartAttempted = false ∧
    (execute_capture "/tmp/out" "20250101_120000"
      { readTarget := .ok ("Internal RAM", ["Internal RAM", "Memory card"])
        setTarget := .ok (), trigger := .gpErr (-110), fileGet := .ok ()
        save := .ok (), delete := .ok (), recovery := .ok ()
        restore := .ok () }).fatalEmitted = false := by decide

/-- Claim C5: whenever step 1 of the capture sequencer switched the
capture-destination configuration to the storage-card option, the
`finally` block attempts to restore the remembered original value — on
every outcome of the later steps, success or failure. -/
theorem claim5_capturetarget_restored (saveDir ts : String) (o : CapOracle)
    (h : (execute_capture saveDir ts o).changedTarget = true) :
    (execute_capture saveDir ts o).restoreAttempted = true := by
  have key : (captureStep1 o).2 = true → (captureStep1 o).1.isSome = true := by
    unfold captureStep1
    (repeat' split) <;> simp
  exact key h

/-- Witness for claim C5's theorem: the restore runs both on a fully
successful capture and on one whose trigger fails. -/
theorem claim5_witness :
    (execute_capture "/tmp/out" "20250101_120000"
      { readTarget := .ok ("Internal RAM", ["Internal RAM", "Memory card"])
        setTarget := .ok (), trigger := .ok ("/store_00010001", "IMG_0001")
        fileGet := .ok (), save := .ok (), delete := .ok (), recovery := .ok ()
        restore := .ok () }).restoreAttempted = true ∧
    (execute_capture "/tmp/out" "20250101_120000"
      { readTarget := .ok ("Internal RAM", ["Internal RAM", "Memory card"])
        setTarget := .ok (), trigger := .gpErr (-1), fileGet := .ok ()
        save := .ok (), delete := .ok (), recovery := .ok ()
        restore := .ok () }).restoreAttempted = true :=
  ⟨claim5_capturetarget_restored "/tmp/out" "20250101_120000"
      { readTarget := .ok ("Internal RAM", ["Internal RAM", "Memory card"])
        setTarget := .ok (), trigger := .ok ("/store_00010001", "IMG_0001")
        fileGet := .ok (), save := .ok (), delete := .ok (), recovery := .ok ()
        restore := .ok () } (by decide),
   claim5_capturetarget_restored "/tmp/out" "20250101_120000"
      { readTarget := .ok ("Internal RAM", ["Internal RAM", "Memory card"])
        setTarget := .ok (), trigger := .gpErr (-1), fileGet := .ok ()
        save := .ok (), delete := .ok (), recovery := .ok ()
        restore := .ok () } (by decide)⟩

lemma string_data_append (a b : String) : (a ++ b).data = a.data ++ b.data := rfl

/-- When neither part forces a special case, `os.path.join` inserts a
single separator. -/
lemma pyJoin_simple (a b : String) (hb : b.toList.head? ≠ some '/')
    (ha1 : a.toList.getLast? ≠ none) (ha2 : a.toList.getLast? ≠ some '/') :
    pyJoin a b = a ++ "/" ++ b := by
  unfold pyJoin
  rw [if_neg hb, if_neg (not_or.mpr ⟨ha1, ha2⟩)]

/-- The saved path always sits in the `captures` subdirectory of the
caller's directory. -/
lemma capturePath_eq (saveDir ts name : String)
    (hD1 : saveDir.toList.getLast? ≠ none)
    (hD2 : saveDir.toList.getLast? ≠ some '/')
    (hts : (ts ++ "_" ++ name).toList.head? ≠ some '/') :
    capturePath saveDir ts name = saveDir ++ "/captures/" ++ ts ++ "_" ++ name := by
  unfold capturePath
  rw [pyJoin_simple saveDir "captures" (by decide) hD1 hD2]
  rw [pyJoin_simple _ _ hts ?hx1 ?hx2]
  case hx1 =>
    show ((saveDir ++ "/" ++ "captures").toList).getLast? ≠ none
    rw [show (saveDir ++ "/" ++ "captures").toList
          = (saveDir ++ "/").toList ++ ("captures" : String).toList from rfl]
    rw [List.getLast?_append_of_ne_nil _ (by decide)]
    decide
  case hx2 =>
    show ((saveDir ++ "/" ++ "captures").toList).getLast? ≠ some '/'
    rw [show (saveDir ++ "/" ++ "captures").toList
          = (saveDir ++ "/").toList ++ ("captures" : String).toList from rfl]
    rw [List.getLast?_append_of_ne_nil _ (by decide)]
    decide
  apply String.ext
  simp only [string_data_append, List.append_assoc]
  rfl

/-- Claim C7 (amended): for every successful capture with caller directory
`D`, the path emitted via `image_captured` is the file
`<timestamp>_<device filename>` inside the `captures` subdirectory of `D`
— that is `D ++ "/captures/" ++ ts ++ "_" ++ name` — not a file directly
under `D` (hypotheses: `D` nonempty without a trailing slash, and the
file part not starting with a slash, as produced by the timestamp
format). -/
theorem claim7_path_in_captures_subdir (saveDir ts folder name : String)
    (o : CapOracle)
    (hTrig : o.trigger = .ok (folder, name)) (hGet : o.fileGet = .ok ())
    (hSave : o.save = .ok ())
    (hD1 : saveDir.toList.getLast? ≠ none)
    (hD2 : saveDir.toList.getLast? ≠ some '/')
    (hts : (ts ++ "_" ++ name).toList.head? ≠ some '/') :
    (execute_capture saveDir ts o).capturedPath
      = some (saveDir ++ "/captures/" ++ ts ++ "_" ++ name) := by
  unfold execute_capture
  rw [hTrig, hGet, hSave]
  simp [capturePath_eq saveDir ts name hD1 hD2 hts]

/-- Witness for claim C7's theorem at a concrete successful capture. -/
theorem claim7_witness :
    (execute_capture "/tmp/out" "20250101_120000"
      { readTarget := .ok ("Internal RAM", ["Internal RAM", "Memory card"])
        setTarget := .ok (), trigger := .ok ("/store_00010001", "IMG_0001")
        fileGet := .ok (), save := .ok (), delete := .ok (), recovery := .ok ()
        restore := .ok () }).capturedPath
      = some ("/tmp/out" ++ "/captures/" ++ "20250101_120000" ++ "_" ++ "IMG_0001") :=
  claim7_path_in_captures_subdir "/tmp/out" "20250101_120000" "/store_00010001"
    "IMG_0001"
    { readTarget := .ok ("Internal RAM", ["Internal RAM", "Memory card"])
      setTarget := .ok (), trigger := .ok ("/store_00010001", "IMG_0001")
      fileGet := .ok (), save := .ok (), delete := .ok (), recovery := .ok ()
      restore := .ok () }
    rfl rfl rfl (by decide) (by decide) (by decide)

/-- Claim C7 counterexample: a successful `CaptureRequest("/tmp/out")` of
device file `IMG_0001` emits the path
`/tmp/out/captures/20250101_120000_IMG_0001`, which is not the claimed
file directly under the destination directory,
`/tmp/out/20250101_120000_IMG_0001`. -/
theorem claim7_counterexample :
    (execute_capture "/tmp/out" "20250101_120000"
      { readTarget := .ok ("Internal RAM", ["Internal RAM", "Memory card"])
        setTarget := .ok (), trigger := .ok ("/store_00010001", "IMG_0001")
        fileGet := .ok (), save := .ok (), delete := .ok (), recovery := .ok ()
        restore := .ok () }).capturedPath
      = some "/tmp/out/captures/20250101_120000_IMG_0001" ∧
    (execute_capture "/tmp/out" "20250101_120000"
      { readTarget := .ok ("Internal RAM", ["Internal RAM", "Memory card"])
        setTarget := .ok (), trigger := .ok ("/store_00010001", "IMG_0001")
        fileGet := .ok (), save := .ok (), delete := .ok (), recovery := .ok ()
        restore := .ok () }).capturedPath
      ≠ some "/tmp/out/20250101_120000_IMG_0001" := by decide

/-- Once the controller is not inside a reconnect probe, no sequence of
worker/probe/thread events — without a user toggle — ever starts a new
worker. -/
lemma ctrl_no_spawn (evs : List CtrlEv) :
    ∀ s : CtrlSt, s.reconnecting = false → CtrlEv.userToggle ∉ evs →
      (ctrlRun s evs).workersStarted = s.workersStarted ∧
      (ctrlRun s evs).reconnecting = false := by
  induction evs with
  | nil => intro s h _; exact ⟨rfl, h⟩
  | cons e es ih =>
    intro s h hmem
    have hes : CtrlEv.userToggle ∉ es := fun hc => hmem (List.mem_cons_of_mem _ hc)
    have hne : e ≠ CtrlEv.userToggle := fun hc => hmem (hc ▸ List.mem_cons_self _ _)
    cases e with
    | userToggle => exact absurd rfl hne
    | workerError => exact ih (on_lv_error s) rfl hes
    | probeDone b =>
      have hstep : ctrlStep s (CtrlEv.probeDone b) = s := by
        unfold ctrlStep on_probe_completed
        rw [h]
        rfl
      show (ctrlRun (ctrlStep s (CtrlEv.probeDone b)) es).workersStarted
            = s.workersStarted ∧
          (ctrlRun (ctrlStep s (CtrlEv.probeDone b)) es).reconnecting = false
      rw [hstep]
      exact ih s h hes
    | threadFinished => exact ih (on_thread_finished s) h hes
    | deadFinished => exact ih (on_dead_thread_finished s) h hes

/-- Claim C8 (amended): when the controller is in Running and the worker
emits a fatal error event, `_on_lv_error` enters the needs-reconnect
state, detaches the dead worker and disconnects its `frame_received`,
`settings_loaded`, `error_occurred` and `capture_failed` callbacks —
`image_captured` deliberately stays connected so an in-flight capture can
still be delivered — tracks the dying thread separately, and no new
worker is started by any subsequent sequence of events that contains no
explicit user toggle (the retry action). -/
theorem claim8_error_needs_reconnect (s : CtrlSt) (hrun : s.lvRunning = true) :
    (ctrlStep s CtrlEv.workerError).needsReconnect = true ∧
    (ctrlStep s CtrlEv.workerError).lvRunning = false ∧
    (ctrlStep s CtrlEv.workerError).deadThread = true ∧
    (ctrlStep s CtrlEv.workerError).connFrame = false ∧
    (ctrlStep s CtrlEv.workerError).connSettings = false ∧
    (ctrlStep s CtrlEv.workerError).connError = false ∧
    (ctrlStep s CtrlEv.workerError).connCaptureFailed = false ∧
    (ctrlStep s CtrlEv.workerError).connImageCaptured = s.connImageCaptured ∧
    ∀ evs : List CtrlEv, CtrlEv.userToggle ∉ evs →
      (ctrlRun (ctrlStep s CtrlEv.workerError) evs).workersStarted
        = s.workersStarted := by
  refine ⟨rfl, rfl, ?_, rfl, rfl, rfl, rfl, rfl, ?_⟩
  · show (s.lvRunning || s.deadThread) = true
    rw [hrun]
    rfl
  · intro evs hmem
    exact (ctrl_no_spawn evs (ctrlStep s CtrlEv.workerError) rfl hmem).1

/-- Witness for claim C8's theorem at a concrete Running state and a
concrete user-toggle-free event sequence. -/
theorem claim8_witness :
    (ctrlStep
        { lvRunning := true, cameraReady := true, connFrame := true,
          connSettings := true, connError := true, connImageCaptured := true,
          connCaptureFailed := true, workersStarted := 1 }
        CtrlEv.workerError).needsReconnect = true ∧
    (ctrlRun
        (ctrlStep
          { lvRunning := true, cameraReady := true, connFrame := true,
            connSettings := true, connError := true, connImageCaptured := true,
            connCaptureFailed := true, workersStarted := 1 }
          CtrlEv.workerError)
        [CtrlEv.probeDone true, CtrlEv.threadFinished,
         CtrlEv.deadFinished]).workersStarted = 1 := by
  have h := claim8_error_needs_reconnect
    { lvRunning := true, cameraReady := true, connFrame := true,
      connSettings := true, connError := true, connImageCaptured := true,
      connCaptureFailed := true, workersStarted := 1 } rfl
  exact ⟨h.1,
    h.2.2.2.2.2.2.2.2
      [CtrlEv.probeDone true, CtrlEv.threadFinished, CtrlEv.deadFinished]
      (by decide)⟩

/-- Claim C8 counterexample: in a Running state with all five worker
callbacks connected, the error transition leaves `image_captured`
connected — the controller does not disconnect all of the dead worker's
callbacks, contrary to the claim's unqualified wording. -/
theorem claim8_counterexample :
    ({ lvRunning := true, cameraReady := true, connFrame := true,
       connSettings := true, connError := true, connImageCaptured := true,
       connCaptureFailed := true, workersStarted := 1 } : CtrlSt).lvRunning
      = true ∧
    (ctrlStep
        { lvRunning := true, cameraReady := true, connFrame := true,
          connSettings := true, connError := true, connImageCaptured := true,
          connCaptureFailed := true, workersStarted := 1 }
        CtrlEv.workerError).connImageCaptured = true := by decide

/-- The embedded `MIN_SHUTTER_VAL` is the rational 1/4 (the source's
float `0.25`). -/
lemma min_shutter_val_eq : MIN_SHUTTER_VAL = 1 / 4 := by
  unfold MIN_SHUTTER_VAL
  rw [Rat.divInt_eq_div]
  norm_num

/-- The embedded `MAX_SHUTTER_VAL` is the rational 1/1000 (the source's
float `0.001` — not exactly representable in binary floating point; the
model uses the exact value). -/
lemma max_shutter_val_eq : MAX_SHUTTER_VAL = 1 / 1000 := by
  unfold MAX_SHUTTER_VAL
  rw [Rat.divInt_eq_div]
  norm_num

/-- Each end state of the iso choice fold only ever gains values that
passed the iso range filter. -/
lemma build_choices_iso_sound (raw : List String) :
    ∀ v ∈ build_choices "iso" raw,
      ¬(pyIsDigit v = true ∧ MAX_ISO < pyIntOfDigits v) := by
  have main : ∀ (l acc : List String),
      (∀ v ∈ acc, ¬(pyIsDigit v = true ∧ MAX_ISO < pyIntOfDigits v)) →
      ∀ v ∈ l.foldl (choiceStep "iso") acc,
        ¬(pyIsDigit v = true ∧ MAX_ISO < pyIntOfDigits v) := by
    intro l
    induction l with
    | nil => intro acc hacc v hv; exact hacc v hv
    | cons c cs ih =>
      intro acc hacc v hv
      rw [List.foldl_cons] at hv
      refine ih _ ?_ v hv
      intro w hw
      simp only [choiceStep] at hw
      split at hw
      · exact hacc w hw
      · split at hw
        · exact hacc w hw
        · split at hw
          · exact hacc w hw
          · rcases List.mem_append.mp hw with h1 | h1
            · exact hacc w h1
            · have hv2 : w = clean_value c := by simpa using h1
              subst hv2
              rename_i hc1 hc2 hc3
              intro hcontra
              apply hc1
              simp only [Bool.and_eq_true, decide_eq_true_eq, beq_self_eq_true,
                true_and]
              exact ⟨hcontra.1, hcontra.2⟩
  intro v hv
  simp only [build_choices] at hv
  split at hv
  · rcases List.mem_cons.mp hv with h1 | h1
    · subst h1; decide
    · exact main raw [] (by simp) v h1
  · exact main raw [] (by simp) v hv

/-- Each end state of the shutter-speed choice fold only ever gains
non-Auto values whose parsed duration lies inside the configured range. -/
lemma build_choices_shutter_sound (raw : List String) :
    ∀ v ∈ build_choices "shutterspeed" raw, v ≠ "Auto" →
      parse_shutter v ≤ MIN_SHUTTER_VAL ∧ MAX_SHUTTER_VAL ≤ parse_shutter v := by
  have main : ∀ (l acc : List String),
      (∀ v ∈ acc, v ≠ "Auto" →
        parse_shutter v ≤ MIN_SHUTTER_VAL ∧ MAX_SHUTTER_VAL ≤ parse_shutter v) →
      ∀ v ∈ l.foldl (choiceStep "shutterspeed") acc, v ≠ "Auto" →
        parse_shutter v ≤ MIN_SHUTTER_VAL ∧ MAX_SHUTTER_VAL ≤ parse_shutter v := by
    intro l
    induction l with
    | nil => intro acc hacc v hv; exact hacc v hv
    | cons c cs ih =>
      intro acc hacc v hv
      rw [List.foldl_cons] at hv
      refine ih _ ?_ v hv
      intro w hw
      simp only [choiceStep] at hw
      split at hw
      · exact hacc w hw
      · split at hw
        · exact hacc w hw
        · split at hw
          · exact hacc w hw
          · rcases List.mem_append.mp hw with h1 | h1
            · exact hacc w h1
            · have hv2 : w = clean_value c := by simpa using h1
              subst hv2
              rename_i hc1 hc2 hc3
              intro hne
              simp only [Bool.and_eq_true, Bool.or_eq_true, decide_eq_true_eq,
                bne_iff_ne, beq_self_eq_true, true_and, ne_eq] at hc2
              push_neg at hc2
              exact hc2 hne
  intro v hv
  simp only [build_choices] at hv
  split at hv
  · rcases List.mem_cons.mp hv with h1 | h1
    · subst h1; intro hne; exact absurd rfl hne
    · exact main raw [] (by simp) v h1
  · exact main raw [] (by simp) v hv

/-- Claim C9: in the choice lists built by `_get_filtered_config`, the
`iso` list contains no all-digit value above 1600, and the
`shutterspeed` list contains no non-Auto value whose parsed duration
exceeds 1/4 s or falls below 1/1000 s — the worker silently filters the
device's raw choice lists (the two float thresholds 0.25 and 0.001 are
modelled as the exact rationals 1/4 and 1/1000). -/
theorem claim9_exposure_filtering :
    (∀ (raw : List String) (v : String), v ∈ build_choices "iso" raw →
        ¬(pyIsDigit v = true ∧ 1600 < pyIntOfDigits v)) ∧
    (∀ (raw : List String) (v : String), v ∈ build_choices "shutterspeed" raw →
        v ≠ "Auto" →
        parse_shutter v ≤ 1 / 4 ∧ 1 / 1000 ≤ parse_shutter v) := by
  refine ⟨fun raw v hv => build_choices_iso_sound raw v hv,
    fun raw v hv hne => ?_⟩
  have h := build_choices_shutter_sound raw v hv hne
  rw [min_shutter_val_eq, max_shutter_val_eq] at h
  exact h

/-- Witness for claim C9's theorem on concrete raw choice lists from
which the out-of-range entries have been filtered. -/
theorem claim9_witness :
    ¬(pyIsDigit "400" = true ∧ 1600 < pyIntOfDigits "400") ∧
    (parse_shutter "1/60" ≤ 1 / 4 ∧ 1 / 1000 ≤ parse_shutter "1/60") :=
  ⟨claim9_exposure_filtering.1 ["400", "3200"] "400" (by decide),
   claim9_exposure_filtering.2 ["30", "1/60"] "1/60" (by decide) (by decide)⟩

end PhotoApp
